import Mathlib

/-
Verification of the RosterApp shift scheduling and assignment engine.

The definitions below are a shallow embedding of the Python source:
  - App/models/scheduling.py      (the three assignment strategies)
  - App/controllers/staff.py      (clock_in, clock_out)
  - App/controllers/admin.py      (schedule_shift, approve/deny swap request)
  - App/views/staffView.py        (respond_to_swap_request)
  - App/controllers/shift_controller.py (documented update/delete stubs)

Timestamps are modelled as integers, fractional hour totals as rationals,
Python dicts as association lists in insertion order, and the database
session as explicit state passing: each mutating operation takes the
current table contents and returns the table contents after the call
together with an Except value mirroring the Python return/raise.
-/

set_option linter.unusedVariables false

/-- Modelled from the spec: the Shift record (App/models has no shift module in
the sources; the spec's §3 data model describes it: unique id, owning staff id,
optional owning schedule id, start/end timestamps, optional clock-in and
clock-out timestamps, both unset on creation). -/
structure Shift where
  id : Nat
  staff_id : Nat
  schedule_id : Option Nat
  start_time : Int
  end_time : Int
  clock_in : Option Int
  clock_out : Option Int
deriving DecidableEq

/-- Per-staff load statistics consumed by EvenDistributionStrategy
(`{"shifts_assigned": int, "hours_assigned": float}`). -/
structure LoadStats where
  shifts_assigned : Nat
  hours_assigned : ℚ
deriving DecidableEq

/-- Per-staff day/night statistics consumed by BalancedDayNightStrategy
(`{"day_count": int, "night_count": int, "total_hours": float}`). -/
structure DayNightStats where
  day_count : Nat
  night_count : Nat
  total_hours : ℚ
deriving DecidableEq

/-- Strict lexicographic order on pairs, as Python compares score tuples. -/
def lexLt {γ δ : Type} [LinearOrder γ] [LinearOrder δ] (p q : γ × δ) : Prop :=
  p.1 < q.1 ∨ (p.1 = q.1 ∧ p.2 < q.2)

instance {γ δ : Type} [LinearOrder γ] [LinearOrder δ] (p q : γ × δ) :
    Decidable (lexLt p q) := by
  unfold lexLt
  infer_instance

/-- Python's `min(iterable, key=f)` over a nonempty list given as head and
tail: keeps the earliest element whose key is strictly smaller than every
later element's key. -/
def foldMinBy {α γ δ : Type} [LinearOrder γ] [LinearOrder δ]
    (f : α → γ × δ) (a : α) (as : List α) : α :=
  as.foldl (fun best x => if lexLt (f x) (f best) then x else best) a

theorem lexLt_irrefl {γ δ : Type} [LinearOrder γ] [LinearOrder δ]
    (p : γ × δ) : ¬ lexLt p p := by
  rintro (h | ⟨_, h⟩) <;> exact lt_irrefl _ h

theorem lexLt_trans {γ δ : Type} [LinearOrder γ] [LinearOrder δ]
    {p q r : γ × δ} (h1 : lexLt p q) (h2 : lexLt q r) : lexLt p r := by
  rcases h1 with h1 | ⟨e1, l1⟩ <;> rcases h2 with h2 | ⟨e2, l2⟩
  · exact Or.inl (lt_trans h1 h2)
  · exact Or.inl (lt_of_lt_of_le h1 (le_of_eq e2))
  · exact Or.inl (lt_of_le_of_lt (le_of_eq e1) h2)
  · exact Or.inr ⟨e1.trans e2, lt_trans l1 l2⟩

theorem lexLt_comparison {γ δ : Type} [LinearOrder γ] [LinearOrder δ]
    {p r : γ × δ} (q : γ × δ) (h : lexLt p r) : lexLt p q ∨ lexLt q r := by
  rcases h with h | ⟨e, l⟩
  · rcases lt_or_le p.1 q.1 with h1 | h1
    · exact Or.inl (Or.inl h1)
    · exact Or.inr (Or.inl (lt_of_le_of_lt h1 h))
  · rcases lt_trichotomy p.1 q.1 with h1 | h1 | h1
    · exact Or.inl (Or.inl h1)
    · rcases lt_or_le p.2 q.2 with h2 | h2
      · exact Or.inl (Or.inr ⟨h1, h2⟩)
      · exact Or.inr (Or.inr ⟨h1.symm.trans e, lt_of_le_of_lt h2 l⟩)
    · exact Or.inr (Or.inl (lt_of_lt_of_le h1 (le_of_eq e)))

theorem foldMinBy_cons {α γ δ : Type} [LinearOrder γ] [LinearOrder δ]
    (f : α → γ × δ) (a x : α) (xs : List α) :
    foldMinBy f a (x :: xs) = foldMinBy f (if lexLt (f x) (f a) then x else a) xs := rfl

theorem foldMinBy_mem {α γ δ : Type} [LinearOrder γ] [LinearOrder δ]
    (f : α → γ × δ) :
    ∀ (as : List α) (a : α), foldMinBy f a as = a ∨ foldMinBy f a as ∈ as := by
  intro as
  induction as with
  | nil => intro a; exact Or.inl rfl
  | cons x xs ih =>
    intro a
    rw [foldMinBy_cons]
    by_cases h : lexLt (f x) (f a)
    · rw [if_pos h]
      rcases ih x with h1 | h1
      · exact Or.inr (by rw [h1]; exact List.mem_cons_self x xs)
      · exact Or.inr (List.mem_cons_of_mem x h1)
    · rw [if_neg h]
      rcases ih a with h1 | h1
      · exact Or.inl h1
      · exact Or.inr (List.mem_cons_of_mem x h1)

theorem foldMinBy_min {α γ δ : Type} [LinearOrder γ] [LinearOrder δ]
    (f : α → γ × δ) :
    ∀ (as : List α) (a y : α), (y = a ∨ y ∈ as) →
      ¬ lexLt (f y) (f (foldMinBy f a as)) := by
  intro as
  induction as with
  | nil =>
    intro a y hy
    rcases hy with rfl | h
    · exact lexLt_irrefl _
    · exact absurd h (List.not_mem_nil y)
  | cons x xs ih =>
    intro a y hy
    rw [foldMinBy_cons]
    by_cases h : lexLt (f x) (f a)
    · rw [if_pos h]
      rcases hy with rfl | hy
      · intro hlt
        exact ih x x (Or.inl rfl) (lexLt_trans h hlt)
      · rcases List.mem_cons.mp hy with rfl | hy
        · exact ih y y (Or.inl rfl)
        · exact ih x y (Or.inr hy)
    · rw [if_neg h]
      rcases hy with rfl | hy
      · exact ih y y (Or.inl rfl)
      · rcases List.mem_cons.mp hy with rfl | hy
        · intro hlt
          rcases lexLt_comparison (f a) hlt with h2 | h2
          · exact h h2
          · exact ih a a (Or.inl rfl) h2
        · exact ih a y (Or.inr hy)

/-- Errors raised by the strategies: `ValueError("No staff stats provided")`
when the stats dict is empty, and CPython's `ValueError` from `min()` when the
eligible list it iterates is empty. -/
inductive StrategyError where
  | noStats
  | emptySequence
deriving DecidableEq

/-- Embeds `EvenDistributionStrategy(eligible_staff_ids)`: the constructor stores the
eligible list; `score_staff` does not consult it. -/
structure EvenDistributionStrategy where
  eligible_staff_ids : List Nat
deriving DecidableEq

/-- The score key `lambda sid: (stats[sid]["shifts_assigned"], stats[sid]["hours_assigned"])`
read off an association-list entry of the stats dict. -/
def evenKey (e : Nat × LoadStats) : Nat × ℚ :=
  (e.2.shifts_assigned, e.2.hours_assigned)

/-- Embeds `EvenDistributionStrategy.score_staff`: raises on an empty stats dict,
otherwise `min(stats.keys(), key=...)` — the first key of lexicographically
minimal `(shifts_assigned, hours_assigned)`. -/
def EvenDistributionStrategy.score_staff (self : EvenDistributionStrategy)
    (stats : List (Nat × LoadStats)) : Except StrategyError Nat :=
  match stats with
  | [] => .error .noStats
  | e :: es => .ok (foldMinBy evenKey e es).1

/-- Embeds `MinDaysPerWeekStrategy(eligible_staff_ids)`. -/
structure MinDaysPerWeekStrategy where
  eligible_staff_ids : List Nat
deriving DecidableEq

/-- The inner `score(sid)` of `MinDaysPerWeekStrategy.score_staff`:
`days_set = stats.get(sid, set())`; `(0, len(days_set))` when the target day
is already worked, else `(1, len(days_set))`. -/
def MinDaysPerWeekStrategy.score (stats : List (Nat × List String))
    (target_day : String) (sid : Nat) : Nat × Nat :=
  let days_set := (stats.lookup sid).getD []
  if target_day ∈ days_set then (0, days_set.length) else (1, days_set.length)

/-- Embeds `MinDaysPerWeekStrategy.score_staff`: raises on an empty stats dict,
otherwise `min(self.eligible_staff_ids, key=score)`. -/
def MinDaysPerWeekStrategy.score_staff (self : MinDaysPerWeekStrategy)
    (stats : List (Nat × List String)) (target_day : String) :
    Except StrategyError Nat :=
  if stats.isEmpty then .error .noStats
  else
    match self.eligible_staff_ids with
    | [] => .error .emptySequence
    | e :: es => .ok (foldMinBy (MinDaysPerWeekStrategy.score stats target_day) e es)

/-- Embeds `BalancedDayNightStrategy(eligible_staff_ids, day_shift_hours)`. -/
structure BalancedDayNightStrategy where
  eligible_staff_ids : List Nat
  day_shift_hours : Nat × Nat
deriving DecidableEq

/-- The inner `score(sid)` of `BalancedDayNightStrategy.score_staff`:
`s = stats.get(sid, {"day_count": 0, "night_count": 0, "total_hours": 0})`;
balance is `day_count - night_count` for a day shift, the reverse for a night
shift; the load tie-break is `total_hours`. -/
def BalancedDayNightStrategy.score (stats : List (Nat × DayNightStats))
    (is_day : Bool) (sid : Nat) : Int × ℚ :=
  let s := (stats.lookup sid).getD ⟨0, 0, 0⟩
  let balance : Int :=
    if is_day then (s.day_count : Int) - (s.night_count : Int)
    else (s.night_count : Int) - (s.day_count : Int)
  (balance, s.total_hours)

/-- Embeds `BalancedDayNightStrategy.score_staff`: raises on an empty stats dict,
otherwise `min(self.eligible_staff_ids, key=score)`. -/
def BalancedDayNightStrategy.score_staff (self : BalancedDayNightStrategy)
    (stats : List (Nat × DayNightStats)) (is_day : Bool) :
    Except StrategyError Nat :=
  if stats.isEmpty then .error .noStats
  else
    match self.eligible_staff_ids with
    | [] => .error .emptySequence
    | e :: es => .ok (foldMinBy (BalancedDayNightStrategy.score stats is_day) e es)

/-- First row of the shift table with the given primary key
(`db.session.get(Shift, shift_id)` / `Shift.query.get(shift_id)`). -/
def dbGet (db : List Shift) (shift_id : Nat) : Option Shift :=
  db.find? (fun s => s.id == shift_id)

/-- Committing a mutated row: every row with the mutated row's primary key is
replaced by it, the rest of the table is untouched. -/
def dbUpdate (db : List Shift) (sh : Shift) : List Shift :=
  db.map (fun s => if s.id == sh.id then sh else s)

/-- Errors raised by `clock_in` / `clock_out` in App/controllers/staff.py:
`ValueError("Invalid shift for staff")`, `PermissionError` on an ownership
mismatch, and the two already-clocked `ValueError`s. -/
inductive ClockError where
  | invalidShift
  | notOwner
  | alreadyClockedIn
  | alreadyClockedOut
deriving DecidableEq

/-- Embeds `clock_in(staff_id, shift_id)` from App/controllers/staff.py: fetch the
shift, reject if absent, not owned by the caller, or already clocked in;
otherwise set `clock_in` to the current time and commit. Returns the table
after the call and the Python result. -/
def clock_in (db : List Shift) (staff_id shift_id : Nat) (now : Int) :
    List Shift × Except ClockError Shift :=
  match dbGet db shift_id with
  | none => (db, .error .invalidShift)
  | some shift =>
    if shift.staff_id ≠ staff_id then (db, .error .notOwner)
    else if shift.clock_in.isSome then (db, .error .alreadyClockedIn)
    else
      let shift' := { shift with clock_in := some now }
      (dbUpdate db shift', .ok shift')

/-- Embeds `clock_out(staff_id, shift_id)` from App/controllers/staff.py: fetch the
shift, reject if absent, not owned by the caller, or already clocked out;
otherwise set `clock_out` to the current time and commit. The source performs
no check of `clock_in`. -/
def clock_out (db : List Shift) (staff_id shift_id : Nat) (now : Int) :
    List Shift × Except ClockError Shift :=
  match dbGet db shift_id with
  | none => (db, .error .invalidShift)
  | some shift =>
    if shift.staff_id ≠ staff_id then (db, .error .notOwner)
    else if shift.clock_out.isSome then (db, .error .alreadyClockedOut)
    else
      let shift' := { shift with clock_out := some now }
      (dbUpdate db shift', .ok shift')

/-- Errors of the documented update/delete operations. -/
inductive ShiftEditError where
  | notFound
  | invalidState
  | invalidInput
deriving DecidableEq

/-- Modelled from the spec: `ShiftController.update_shift` exists in
App/controllers/shift_controller.py only as a documented stub (a marker comment
over `pass`); per the spec §4.4 and the marker, it rejects an unknown shift,
rejects with InvalidState once either clock field is set, requires
`start < end` when both bounds are given, and otherwise overwrites whichever
bounds were provided and commits. -/
def update_shift (db : List Shift) (shift_id : Nat)
    (start_time end_time : Option Int) :
    List Shift × Except ShiftEditError Shift :=
  match dbGet db shift_id with
  | none => (db, .error .notFound)
  | some shift =>
    if shift.clock_in.isSome || shift.clock_out.isSome then
      (db, .error .invalidState)
    else
      match start_time, end_time with
      | some s, some e =>
        if s < e then
          let shift' := { shift with start_time := s, end_time := e }
          (dbUpdate db shift', .ok shift')
        else (db, .error .invalidInput)
      | some s, none =>
        let shift' := { shift with start_time := s }
        (dbUpdate db shift', .ok shift')
      | none, some e =>
        let shift' := { shift with end_time := e }
        (dbUpdate db shift', .ok shift')
      | none, none => (dbUpdate db shift, .ok shift)

/-- Modelled from the spec: `ShiftController.delete_shift` exists in
App/controllers/shift_controller.py only as a documented stub; per the spec
§4.4 and the marker, it rejects an unknown shift, rejects with InvalidState
once either clock field is set, and otherwise removes the row and commits. -/
def delete_shift (db : List Shift) (shift_id : Nat) :
    List Shift × Except ShiftEditError Nat :=
  match dbGet db shift_id with
  | none => (db, .error .notFound)
  | some shift =>
    if shift.clock_in.isSome || shift.clock_out.isSome then
      (db, .error .invalidState)
    else (db.filter (fun s => s.id ≠ shift_id), .ok shift_id)

/-- A user row as read by `get_user`: id plus role tag
(`"staff"`, `"admin"`, or another role string). -/
structure User where
  id : Nat
  role : String
deriving DecidableEq

def staffRole : String := "staff"

/-- Embeds `get_user(id)`: first user row with the given id. -/
def get_user (users : List User) (uid : Nat) : Option User :=
  users.find? (fun u => u.id == uid)

/-- Errors raised by `schedule_shift` in App/controllers/admin.py:
`PermissionError("Only staff can be assigned to a shift.")` and
`ValueError("Invalid schedule ID")`. -/
inductive ScheduleShiftError where
  | notStaff
  | invalidSchedule
deriving DecidableEq

/-- Embeds `schedule_shift(admin_id, staff_id, schedule_id, start_time, end_time)`
from App/controllers/admin.py: rejects when the staff user is absent or not
role `staff`, rejects when the schedule id resolves to no schedule, and
otherwise appends a new shift row with both clock fields unset (the Shift
columns default to NULL per the spec's data model) and commits. The source
performs no comparison of `start_time` with `end_time`. -/
def schedule_shift (users : List User) (schedules : List Nat)
    (db : List Shift) (admin_id staff_id schedule_id : Nat)
    (start_time end_time : Int) (new_id : Nat) :
    List Shift × Except ScheduleShiftError Shift :=
  match get_user users staff_id with
  | none => (db, .error .notStaff)
  | some staff =>
    if staff.role ≠ staffRole then (db, .error .notStaff)
    else if schedule_id ∉ schedules then (db, .error .invalidSchedule)
    else
      let new_shift : Shift :=
        { id := new_id, staff_id := staff_id, schedule_id := some schedule_id,
          start_time := start_time, end_time := end_time,
          clock_in := none, clock_out := none }
      (db ++ [new_shift], .ok new_shift)

/-- Status strings of ShiftSwapRequest (`pending`, `approved`, `denied`). -/
inductive SwapStatus where
  | pending
  | approved
  | denied
deriving DecidableEq

/-- A ShiftSwapRequest row (App/models/shift_swap_request.py). -/
structure SwapRequest where
  id : Nat
  requesting_staff_id : Nat
  requested_staff_id : Nat
  shift_id : Nat
  status : SwapStatus
deriving DecidableEq

/-- The shift table and the swap-request table, the state shared by the swap
endpoints. -/
structure SwapState where
  shifts : List Shift
  swaps : List SwapRequest
deriving DecidableEq

/-- First swap-request row with the given primary key. -/
def swapGet (db : List SwapRequest) (request_id : Nat) : Option SwapRequest :=
  db.find? (fun r => r.id == request_id)

/-- Committing a mutated swap-request row. -/
def swapUpdate (db : List SwapRequest) (r : SwapRequest) : List SwapRequest :=
  db.map (fun x => if x.id == r.id then r else x)

/-- The action strings accepted by the respond endpoint. -/
inductive SwapAction where
  | accept
  | decline
deriving DecidableEq

/-- Errors of the swap endpoints: the respond endpoint's 404 (request not
found), 403 (caller is not the requested staff), and 400
(`Request already processed`); the admin controller's
`ValueError("Swap request not found")` is mapped to `notFound` as well. -/
inductive SwapError where
  | notFound
  | notAuthorized
  | alreadyProcessed
deriving DecidableEq

/-- Embeds `respond_to_swap_request(request_id)` from App/views/staffView.py (the
action string has already passed the `action in ['accept', 'decline']` check):
404 when the request is unknown, 403 when the caller is not the requested
staff, 400 when the status is no longer pending; on `accept` the referenced
shift, when it exists, is reassigned to the requested staff and the status is
set to approved; on `decline` the status is set to denied and no shift is
touched. -/
def respond_to_swap_request (st : SwapState) (staff_id request_id : Nat)
    (action : SwapAction) : SwapState × Except SwapError SwapRequest :=
  match swapGet st.swaps request_id with
  | none => (st, .error .notFound)
  | some r =>
    if r.requested_staff_id ≠ staff_id then (st, .error .notAuthorized)
    else if r.status ≠ SwapStatus.pending then (st, .error .alreadyProcessed)
    else
      match action with
      | .accept =>
        let shifts' :=
          match dbGet st.shifts r.shift_id with
          | some sh => dbUpdate st.shifts { sh with staff_id := r.requested_staff_id }
          | none => st.shifts
        let r' := { r with status := SwapStatus.approved }
        (⟨shifts', swapUpdate st.swaps r'⟩, .ok r')
      | .decline =>
        let r' := { r with status := SwapStatus.denied }
        (⟨st.shifts, swapUpdate st.swaps r'⟩, .ok r')

/-- Embeds `approve_swap_request(request_id)` from App/controllers/admin.py: raises
when the request is unknown, otherwise sets the status to `approved` and
commits. The source neither checks the current status nor touches the
referenced shift. -/
def approve_swap_request (st : SwapState) (request_id : Nat) :
    SwapState × Except SwapError SwapRequest :=
  match swapGet st.swaps request_id with
  | none => (st, .error .notFound)
  | some r =>
    let r' := { r with status := SwapStatus.approved }
    (⟨st.shifts, swapUpdate st.swaps r'⟩, .ok r')

/-- Embeds `deny_swap_request(request_id)` from App/controllers/admin.py: raises when
the request is unknown, otherwise sets the status to `denied` and commits,
with no status check and no shift change. -/
def deny_swap_request (st : SwapState) (request_id : Nat) :
    SwapState × Except SwapError SwapRequest :=
  match swapGet st.swaps request_id with
  | none => (st, .error .notFound)
  | some r =>
    let r' := { r with status := SwapStatus.denied }
    (⟨st.shifts, swapUpdate st.swaps r'⟩, .ok r')

/-- C5: for every non-empty stats map, EvenDistributionStrategy.score_staff
returns the key of a stats entry whose (shifts_assigned, hours_assigned) pair
is lexicographically minimal over all entries — strictly fewest shifts first,
fewest hours as tie-break. -/
theorem c5_even_distribution_lex_minimal (self : EvenDistributionStrategy)
    (e0 : Nat × LoadStats) (es : List (Nat × LoadStats)) :
    ∃ w, w ∈ e0 :: es ∧ self.score_staff (e0 :: es) = Except.ok w.1 ∧
      ∀ e2, e2 ∈ e0 :: es → ¬ lexLt (evenKey e2) (evenKey w) := by
  refine ⟨foldMinBy evenKey e0 es, ?_, rfl, ?_⟩
  · rcases foldMinBy_mem evenKey es e0 with h1 | h1
    · rw [h1]; exact List.mem_cons_self _ _
    · exact List.mem_cons_of_mem _ h1
  · intro e2 he2
    exact foldMinBy_min evenKey es e0 e2 (List.mem_cons.mp he2)

/-- C6: whenever MinDaysPerWeekStrategy.score_staff succeeds, the returned
candidate comes from the eligible list and minimizes
(0 if already working the target date else 1, distinct days worked)
lexicographically; and in the spec scenario — staff 1 already works
2025-01-01, staff 2 does not, both eligible — staff 1 is selected. -/
theorem c6_min_days_lex_minimal :
    (∀ (self : MinDaysPerWeekStrategy) (stats : List (Nat × List String))
        (target_day : String) (r : Nat),
      self.score_staff stats target_day = Except.ok r →
      r ∈ self.eligible_staff_ids ∧
        ∀ sid, sid ∈ self.eligible_staff_ids →
          ¬ lexLt (MinDaysPerWeekStrategy.score stats target_day sid)
              (MinDaysPerWeekStrategy.score stats target_day r)) ∧
    MinDaysPerWeekStrategy.score_staff ⟨[1, 2]⟩
      [(1, [("2025-01-01")]), (2, [])] ("2025-01-01") = Except.ok 1 := by
  constructor
  · intro self stats target_day r h
    unfold MinDaysPerWeekStrategy.score_staff at h
    by_cases hs : stats.isEmpty
    · rw [if_pos hs] at h; exact absurd h (by simp)
    · rw [if_neg hs] at h
      rcases hel : self.eligible_staff_ids with _ | ⟨e, es⟩
      · rw [hel] at h; exact absurd h (by simp)
      · rw [hel] at h
        have hr : foldMinBy (MinDaysPerWeekStrategy.score stats target_day) e es = r :=
          by exact Except.ok.inj h
        constructor
        · rw [← hr]
          rcases foldMinBy_mem (MinDaysPerWeekStrategy.score stats target_day) es e
            with h1 | h1
          · rw [h1]; exact List.mem_cons_self _ _
          · exact List.mem_cons_of_mem _ h1
        · intro sid hsid
          rw [← hr]
          exact foldMinBy_min (MinDaysPerWeekStrategy.score stats target_day) es e sid
            (List.mem_cons.mp hsid)
  · rfl

/-- C6 witness: the general conjunct applied to the spec scenario input,
selecting staff 1. -/
theorem c6_min_days_witness :
    (1 : Nat) ∈ (MinDaysPerWeekStrategy.mk [1, 2]).eligible_staff_ids ∧
      ∀ sid, sid ∈ (MinDaysPerWeekStrategy.mk [1, 2]).eligible_staff_ids →
        ¬ lexLt (MinDaysPerWeekStrategy.score
            [(1, [("2025-01-01")]), (2, [])] ("2025-01-01") sid)
          (MinDaysPerWeekStrategy.score
            [(1, [("2025-01-01")]), (2, [])] ("2025-01-01") 1) :=
  c6_min_days_lex_minimal.1 ⟨[1, 2]⟩ [(1, [("2025-01-01")]), (2, [])]
    ("2025-01-01") 1 rfl

/-- C7 counterexample: with eligible list [1] and a stats map keyed only by
staff 2, EvenDistributionStrategy.score_staff returns 2, which is not a member
of the supplied eligible set. -/
theorem c7_counterexample :
    EvenDistributionStrategy.score_staff ⟨[1]⟩ [(2, ⟨0, 0⟩)] = Except.ok 2 ∧
    (2 : Nat) ∉ (EvenDistributionStrategy.mk [1]).eligible_staff_ids := by
  refine ⟨rfl, ?_⟩
  simp [EvenDistributionStrategy.eligible_staff_ids]

/-- C7 amended: MinDaysPerWeek and BalancedDayNight return a member of their
eligible_staff_ids list whenever they succeed; EvenDistribution returns a key
of the stats map, which need not belong to the eligible set. -/
theorem c7_winner_membership :
    (∀ (self : MinDaysPerWeekStrategy) (stats : List (Nat × List String))
        (target_day : String) (r : Nat),
      self.score_staff stats target_day = Except.ok r →
        r ∈ self.eligible_staff_ids) ∧
    (∀ (self : BalancedDayNightStrategy) (stats : List (Nat × DayNightStats))
        (is_day : Bool) (r : Nat),
      self.score_staff stats is_day = Except.ok r →
        r ∈ self.eligible_staff_ids) ∧
    (∀ (self : EvenDistributionStrategy) (stats : List (Nat × LoadStats))
        (r : Nat),
      self.score_staff stats = Except.ok r → r ∈ stats.map Prod.fst) := by
  refine ⟨?_, ?_, ?_⟩
  · intro self stats target_day r h
    unfold MinDaysPerWeekStrategy.score_staff at h
    by_cases hs : stats.isEmpty
    · rw [if_pos hs] at h; exact absurd h (by simp)
    · rw [if_neg hs] at h
      rcases hel : self.eligible_staff_ids with _ | ⟨e, es⟩
      · rw [hel] at h; exact absurd h (by simp)
      · rw [hel] at h
        have hr := Except.ok.inj h
        rw [← hr]
        rcases foldMinBy_mem (MinDaysPerWeekStrategy.score stats target_day) es e
          with h1 | h1
        · rw [h1]; exact List.mem_cons_self _ _
        · exact List.mem_cons_of_mem _ h1
  · intro self stats is_day r h
    unfold BalancedDayNightStrategy.score_staff at h
    by_cases hs : stats.isEmpty
    · rw [if_pos hs] at h; exact absurd h (by simp)
    · rw [if_neg hs] at h
      rcases hel : self.eligible_staff_ids with _ | ⟨e, es⟩
      · rw [hel] at h; exact absurd h (by simp)
      · rw [hel] at h
        have hr := Except.ok.inj h
        rw [← hr]
        rcases foldMinBy_mem (BalancedDayNightStrategy.score stats is_day) es e
          with h1 | h1
        · rw [h1]; exact List.mem_cons_self _ _
        · exact List.mem_cons_of_mem _ h1
  · intro self stats r h
    rcases stats with _ | ⟨e, es⟩
    · exact absurd h (by simp [EvenDistributionStrategy.score_staff])
    · have hr := Except.ok.inj h
      rw [← hr]
      rcases foldMinBy_mem evenKey es e with h1 | h1
      · rw [h1]; exact List.mem_map_of_mem Prod.fst (List.mem_cons_self _ _)
      · exact List.mem_map_of_mem Prod.fst (List.mem_cons_of_mem _ h1)

/-- C7 witness: the three membership conjuncts applied at concrete inputs
(stats keyed by staff 5, eligible lists [7] and [9], even stats keyed by 4). -/
theorem c7_winner_membership_witness :
    (7 : Nat) ∈ (MinDaysPerWeekStrategy.mk [7]).eligible_staff_ids ∧
    (9 : Nat) ∈ (BalancedDayNightStrategy.mk [9] (6, 18)).eligible_staff_ids ∧
    (4 : Nat) ∈ ([(4, LoadStats.mk 0 0)].map Prod.fst) :=
  ⟨c7_winner_membership.1 ⟨[7]⟩ [(5, [])] ("2025-01-01") 7 rfl,
   c7_winner_membership.2.1 ⟨[9], (6, 18)⟩ [(5, ⟨0, 0, 0⟩)] true 9 rfl,
   c7_winner_membership.2.2 ⟨[]⟩ [(4, ⟨0, 0⟩)] 4 rfl⟩

/-- C8: an eligible staff id absent from the stats map is scored by
MinDaysPerWeek as an empty work-day set — score (1, 0) — and by
BalancedDayNight as day_count 0, night_count 0, total_hours 0 — score (0, 0);
and with a non-empty stats map and a non-empty eligible list containing such
an absent id, both score_staff calls still return a winner rather than
raising. -/
theorem c8_absent_id_zero_default :
    (∀ (stats : List (Nat × List String)) (target_day : String) (sid : Nat),
      stats.lookup sid = none →
        MinDaysPerWeekStrategy.score stats target_day sid = (1, 0)) ∧
    (∀ (stats : List (Nat × DayNightStats)) (is_day : Bool) (sid : Nat),
      stats.lookup sid = none →
        BalancedDayNightStrategy.score stats is_day sid = (0, 0)) ∧
    (∀ (self : MinDaysPerWeekStrategy) (stats : List (Nat × List String))
        (target_day : String),
      stats ≠ [] → self.eligible_staff_ids ≠ [] →
        ∃ r, self.score_staff stats target_day = Except.ok r) ∧
    (∀ (self : BalancedDayNightStrategy) (stats : List (Nat × DayNightStats))
        (is_day : Bool),
      stats ≠ [] → self.eligible_staff_ids ≠ [] →
        ∃ r, self.score_staff stats is_day = Except.ok r) := by
  refine ⟨?_, ?_, ?_, ?_⟩
  · intro stats target_day sid h
    simp [MinDaysPerWeekStrategy.score, h]
  · intro stats is_day sid h
    cases is_day <;> simp [BalancedDayNightStrategy.score, h]
  · intro self stats target_day hs hel
    unfold MinDaysPerWeekStrategy.score_staff
    rw [if_neg (by simpa [List.isEmpty_iff] using hs)]
    rcases h : self.eligible_staff_ids with _ | ⟨e, es⟩
    · exact absurd h hel
    · exact ⟨_, rfl⟩
  · intro self stats is_day hs hel
    unfold BalancedDayNightStrategy.score_staff
    rw [if_neg (by simpa [List.isEmpty_iff] using hs)]
    rcases h : self.eligible_staff_ids with _ | ⟨e, es⟩
    · exact absurd h hel
    · exact ⟨_, rfl⟩

/-- C8 witness: the four conjuncts applied at concrete inputs whose eligible
id 7 is absent from a stats map keyed only by staff 5. -/
theorem c8_absent_id_zero_default_witness :
    MinDaysPerWeekStrategy.score [(5, [("2025-01-01")])] ("2025-01-02") 7 = (1, 0) ∧
    BalancedDayNightStrategy.score [(5, ⟨1, 2, 8⟩)] true 7 = (0, 0) ∧
    (∃ r, MinDaysPerWeekStrategy.score_staff ⟨[7]⟩ [(5, [("2025-01-01")])]
      ("2025-01-02") = Except.ok r) ∧
    (∃ r, BalancedDayNightStrategy.score_staff ⟨[7], (6, 18)⟩ [(5, ⟨1, 2, 8⟩)]
      true = Except.ok r) :=
  ⟨c8_absent_id_zero_default.1 [(5, [("2025-01-01")])] ("2025-01-02") 7 rfl,
   c8_absent_id_zero_default.2.1 [(5, ⟨1, 2, 8⟩)] true 7 rfl,
   c8_absent_id_zero_default.2.2.1 ⟨[7]⟩ [(5, [("2025-01-01")])] ("2025-01-02")
     (by simp) (by simp),
   c8_absent_id_zero_default.2.2.2 ⟨[7], (6, 18)⟩ [(5, ⟨1, 2, 8⟩)] true
     (by simp) (by simp)⟩

/-- A scheduled shift (id 1, owner 10, bounds 0–480, never clocked). -/
def c1Shift : Shift :=
  { id := 1, staff_id := 10, schedule_id := none, start_time := 0,
    end_time := 480, clock_in := none, clock_out := none }

/-- C1 counterexample: on a shift that has never been clocked in, clock_out by
the owning staff succeeds and sets the clock_out field, rather than being
rejected with an InvalidState error. -/
theorem c1_counterexample :
    c1Shift.clock_in = none ∧
    clock_out [c1Shift] 10 1 99 =
      ([{ c1Shift with clock_out := some 99 }],
        Except.ok { c1Shift with clock_out := some 99 }) :=
  ⟨rfl, rfl⟩

/-- C1 amended: clock_out requires only that the shift exists, that the caller
owns it, and that clock_out is still unset; it never inspects clock_in, so
from the Scheduled state (never clocked in) it succeeds and sets clock_out. -/
theorem c1_clock_out_skips_clock_in_check
    (db : List Shift) (staff_id shift_id : Nat) (now : Int) (t : Shift)
    (hget : dbGet db shift_id = some t)
    (hown : t.staff_id = staff_id)
    (hout : t.clock_out = none) :
    clock_out db staff_id shift_id now =
      (dbUpdate db { t with clock_out := some now },
        Except.ok { t with clock_out := some now }) := by
  unfold clock_out
  rw [hget]
  simp [hown, hout]

/-- C1 witness: the amended theorem applied to a concrete Scheduled shift
(clock_in unset). -/
theorem c1_clock_out_skips_clock_in_check_witness :
    dbGet [c1Shift] 1 = some c1Shift ∧ c1Shift.staff_id = 10 ∧
    c1Shift.clock_out = none ∧ c1Shift.clock_in = none ∧
    clock_out [c1Shift] 10 1 99 =
      (dbUpdate [c1Shift] { c1Shift with clock_out := some 99 },
        Except.ok { c1Shift with clock_out := some 99 }) :=
  ⟨rfl, rfl, rfl, rfl,
    c1_clock_out_skips_clock_in_check [c1Shift] 10 1 99 c1Shift rfl rfl rfl⟩

/-- C2: once either clock timestamp is set on a shift, update_shift and
delete_shift both reject with InvalidState and leave the table unchanged, so
the shift's bounds and its existence are frozen. -/
theorem c2_clocked_shift_frozen
    (db : List Shift) (shift_id : Nat) (t : Shift)
    (start_time end_time : Option Int)
    (hget : dbGet db shift_id = some t)
    (hclk : t.clock_in.isSome ∨ t.clock_out.isSome) :
    update_shift db shift_id start_time end_time =
      (db, Except.error ShiftEditError.invalidState) ∧
    delete_shift db shift_id = (db, Except.error ShiftEditError.invalidState) := by
  have hb : (t.clock_in.isSome || t.clock_out.isSome) = true := by
    rcases hclk with h | h <;> simp [h]
  constructor
  · unfold update_shift
    rw [hget]
    simp [hb]
  · unfold delete_shift
    rw [hget]
    simp [hb]

/-- A clocked-in shift (clock_in set, clock_out unset). -/
def c2Shift : Shift :=
  { id := 2, staff_id := 10, schedule_id := some 1, start_time := 0,
    end_time := 480, clock_in := some 5, clock_out := none }

/-- C2 witness: the freeze theorem applied to a concrete clocked-in shift. -/
theorem c2_clocked_shift_frozen_witness :
    dbGet [c2Shift] 2 = some c2Shift ∧
    (c2Shift.clock_in.isSome ∨ c2Shift.clock_out.isSome) ∧
    update_shift [c2Shift] 2 (some 60) none =
      ([c2Shift], Except.error ShiftEditError.invalidState) ∧
    delete_shift [c2Shift] 2 =
      ([c2Shift], Except.error ShiftEditError.invalidState) :=
  ⟨rfl, Or.inl rfl,
    c2_clocked_shift_frozen [c2Shift] 2 c2Shift (some 60) none rfl (Or.inl rfl)⟩

def adminRole : String := "admin"

/-- C9 counterexample: schedule_shift never compares start_time with end_time,
so with a valid staff member and schedule a shift with start 100 and end 50 is
created and persisted instead of being rejected. -/
theorem c9_counterexample :
    ¬ ((100 : Int) < 50) ∧
    schedule_shift [⟨3, staffRole⟩] [4] [] 1 3 4 100 50 11 =
      ([⟨11, 3, some 4, 100, 50, none, none⟩],
        Except.ok ⟨11, 3, some 4, 100, 50, none, none⟩) :=
  ⟨by decide, rfl⟩

/-- C9 amended: schedule_shift creates a new shift with both clock timestamps
unset whenever the referenced staff member exists with role staff and the
referenced schedule exists — with no validation of start < end — and rejects
with no shift created when the staff or schedule check fails. -/
theorem c9_schedule_shift_no_bounds_check :
    (∀ (users : List User) (schedules : List Nat) (db : List Shift)
        (admin_id staff_id schedule_id : Nat) (s e : Int) (nid : Nat) (u : User),
      get_user users staff_id = some u → u.role = staffRole →
      schedule_id ∈ schedules →
      schedule_shift users schedules db admin_id staff_id schedule_id s e nid =
        (db ++ [⟨nid, staff_id, some schedule_id, s, e, none, none⟩],
          Except.ok ⟨nid, staff_id, some schedule_id, s, e, none, none⟩)) ∧
    (∀ (users : List User) (schedules : List Nat) (db : List Shift)
        (admin_id staff_id schedule_id : Nat) (s e : Int) (nid : Nat),
      get_user users staff_id = none →
      schedule_shift users schedules db admin_id staff_id schedule_id s e nid =
        (db, Except.error ScheduleShiftError.notStaff)) ∧
    (∀ (users : List User) (schedules : List Nat) (db : List Shift)
        (admin_id staff_id schedule_id : Nat) (s e : Int) (nid : Nat) (u : User),
      get_user users staff_id = some u → u.role ≠ staffRole →
      schedule_shift users schedules db admin_id staff_id schedule_id s e nid =
        (db, Except.error ScheduleShiftError.notStaff)) ∧
    (∀ (users : List User) (schedules : List Nat) (db : List Shift)
        (admin_id staff_id schedule_id : Nat) (s e : Int) (nid : Nat) (u : User),
      get_user users staff_id = some u → u.role = staffRole →
      schedule_id ∉ schedules →
      schedule_shift users schedules db admin_id staff_id schedule_id s e nid =
        (db, Except.error ScheduleShiftError.invalidSchedule)) := by
  refine ⟨?_, ?_, ?_, ?_⟩
  · intro users schedules db admin_id staff_id schedule_id s e nid u hu hrole hsch
    unfold schedule_shift
    rw [hu]
    simp [hrole, hsch]
  · intro users schedules db admin_id staff_id schedule_id s e nid hu
    unfold schedule_shift
    rw [hu]
  · intro users schedules db admin_id staff_id schedule_id s e nid u hu hrole
    unfold schedule_shift
    rw [hu]
    simp [hrole]
  · intro users schedules db admin_id staff_id schedule_id s e nid u hu hrole hsch
    unfold schedule_shift
    rw [hu]
    simp [hrole, hsch]

/-- C9 witness: the four conjuncts at concrete inputs — creation succeeds for
staff 3 on schedule 4 even with start 100 ≥ end 50; user 99 is unknown, user 4
has role admin, and schedule 8 does not exist. -/
theorem c9_schedule_shift_no_bounds_check_witness :
    schedule_shift [⟨3, staffRole⟩, ⟨4, adminRole⟩] [4] [] 1 3 4 100 50 11 =
      ([⟨11, 3, some 4, 100, 50, none, none⟩],
        Except.ok ⟨11, 3, some 4, 100, 50, none, none⟩) ∧
    schedule_shift [⟨3, staffRole⟩, ⟨4, adminRole⟩] [4] [] 1 99 4 0 480 11 =
      ([], Except.error ScheduleShiftError.notStaff) ∧
    schedule_shift [⟨3, staffRole⟩, ⟨4, adminRole⟩] [4] [] 1 4 4 0 480 11 =
      ([], Except.error ScheduleShiftError.notStaff) ∧
    schedule_shift [⟨3, staffRole⟩, ⟨4, adminRole⟩] [4] [] 1 3 8 0 480 11 =
      ([], Except.error ScheduleShiftError.invalidSchedule) :=
  ⟨c9_schedule_shift_no_bounds_check.1 [⟨3, staffRole⟩, ⟨4, adminRole⟩] [4] []
      1 3 4 100 50 11 ⟨3, staffRole⟩ rfl rfl (by simp),
   c9_schedule_shift_no_bounds_check.2.1 [⟨3, staffRole⟩, ⟨4, adminRole⟩] [4] []
      1 99 4 0 480 11 rfl,
   c9_schedule_shift_no_bounds_check.2.2.1 [⟨3, staffRole⟩, ⟨4, adminRole⟩] [4] []
      1 4 4 0 480 11 ⟨4, adminRole⟩ rfl (by simp [adminRole, staffRole]),
   c9_schedule_shift_no_bounds_check.2.2.2 [⟨3, staffRole⟩, ⟨4, adminRole⟩] [4] []
      1 3 8 0 480 11 ⟨3, staffRole⟩ rfl rfl (by simp)⟩

/-- C10: a successful clock_in produces exactly the fetched shift with only its
clock_in field set to the current time, and the committed table differs from
the old one only at that shift's id: every other row is carried over
unchanged; symmetrically for clock_out and its clock_out field. -/
theorem c10_clock_frame
    (db : List Shift) (staff_id shift_id : Nat) (now : Int)
    (db' : List Shift) (sh : Shift) :
    (clock_in db staff_id shift_id now = (db', Except.ok sh) →
      (∃ t, dbGet db shift_id = some t ∧ sh = { t with clock_in := some now }) ∧
      db' = dbUpdate db sh ∧
      ∀ s, s ∈ db → s.id ≠ sh.id → s ∈ db') ∧
    (clock_out db staff_id shift_id now = (db', Except.ok sh) →
      (∃ t, dbGet db shift_id = some t ∧ sh = { t with clock_out := some now }) ∧
      db' = dbUpdate db sh ∧
      ∀ s, s ∈ db → s.id ≠ sh.id → s ∈ db') := by
  constructor
  · intro h
    cases hget : dbGet db shift_id with
    | none =>
      unfold clock_in at h
      rw [hget] at h
      simp at h
    | some t =>
      have he : clock_in db staff_id shift_id now =
          (if t.staff_id ≠ staff_id then (db, Except.error ClockError.notOwner)
           else if t.clock_in.isSome then (db, Except.error ClockError.alreadyClockedIn)
           else (dbUpdate db { t with clock_in := some now },
             Except.ok { t with clock_in := some now })) := by
        unfold clock_in
        rw [hget]
      rw [he] at h
      by_cases h1 : t.staff_id ≠ staff_id
      · rw [if_pos h1] at h; simp at h
      · rw [if_neg h1] at h
        by_cases h2 : t.clock_in.isSome
        · rw [if_pos h2] at h; simp at h
        · rw [if_neg h2] at h
          simp only [Prod.mk.injEq] at h
          obtain ⟨hdb, hok⟩ := h
          have hsh : sh = { t with clock_in := some now } :=
            (Except.ok.inj hok).symm
          refine ⟨⟨t, rfl, hsh⟩, ?_, ?_⟩
          · rw [hsh]
            exact hdb.symm
          · intro s hs hne
            rw [← hdb]
            unfold dbUpdate
            refine List.mem_map.mpr ⟨s, hs, ?_⟩
            rw [hsh] at hne
            simp [hne]
  · intro h
    cases hget : dbGet db shift_id with
    | none =>
      unfold clock_out at h
      rw [hget] at h
      simp at h
    | some t =>
      have he : clock_out db staff_id shift_id now =
          (if t.staff_id ≠ staff_id then (db, Except.error ClockError.notOwner)
           else if t.clock_out.isSome then (db, Except.error ClockError.alreadyClockedOut)
           else (dbUpdate db { t with clock_out := some now },
             Except.ok { t with clock_out := some now })) := by
        unfold clock_out
        rw [hget]
      rw [he] at h
      by_cases h1 : t.staff_id ≠ staff_id
      · rw [if_pos h1] at h; simp at h
      · rw [if_neg h1] at h
        by_cases h2 : t.clock_out.isSome
        · rw [if_pos h2] at h; simp at h
        · rw [if_neg h2] at h
          simp only [Prod.mk.injEq] at h
          obtain ⟨hdb, hok⟩ := h
          have hsh : sh = { t with clock_out := some now } :=
            (Except.ok.inj hok).symm
          refine ⟨⟨t, rfl, hsh⟩, ?_, ?_⟩
          · rw [hsh]
            exact hdb.symm
          · intro s hs hne
            rw [← hdb]
            unfold dbUpdate
            refine List.mem_map.mpr ⟨s, hs, ?_⟩
            rw [hsh] at hne
            simp [hne]

/-- A never-clocked shift used to witness the clock frame property. -/
def c10Shift : Shift :=
  { id := 3, staff_id := 20, schedule_id := none, start_time := 0,
    end_time := 480, clock_in := none, clock_out := none }

/-- c10Shift after clocking in at 7. -/
def c10In : Shift := { c10Shift with clock_in := some 7 }

/-- c10Shift after clocking out at 9. -/
def c10Out : Shift := { c10Shift with clock_out := some 9 }

/-- C10 witness: the frame property at a concrete one-row table for both a
successful clock_in and a successful clock_out. -/
theorem c10_clock_frame_witness :
    ((∃ t, dbGet [c10Shift] 3 = some t ∧ c10In = { t with clock_in := some 7 }) ∧
      [c10In] = dbUpdate [c10Shift] c10In ∧
      ∀ s, s ∈ [c10Shift] → s.id ≠ c10In.id → s ∈ [c10In]) ∧
    ((∃ t, dbGet [c10Shift] 3 = some t ∧ c10Out = { t with clock_out := some 9 }) ∧
      [c10Out] = dbUpdate [c10Shift] c10Out ∧
      ∀ s, s ∈ [c10Shift] → s.id ≠ c10Out.id → s ∈ [c10Out]) :=
  ⟨(c10_clock_frame [c10Shift] 20 3 7 [c10In] c10In).1 rfl,
   (c10_clock_frame [c10Shift] 20 3 9 [c10Out] c10Out).2 rfl⟩

/-- A shift owned by staff 1, target of the swap scenario. -/
def c3Shift : Shift :=
  { id := 5, staff_id := 1, schedule_id := none, start_time := 0,
    end_time := 480, clock_in := none, clock_out := none }

/-- A pending swap request: staff 1 asks staff 2 to take shift 5. -/
def c3Request : SwapRequest :=
  { id := 7, requesting_staff_id := 1, requested_staff_id := 2,
    shift_id := 5, status := SwapStatus.pending }

/-- The swap scenario state. -/
def c3State : SwapState := ⟨[c3Shift], [c3Request]⟩

/-- C3 counterexample: administrator approval of a pending request sets its
status to approved but leaves the referenced shift's owning staff id
untouched (still staff 1, not the requested staff 2). -/
theorem c3_counterexample :
    c3Request.status = SwapStatus.pending ∧
    c3Shift.staff_id ≠ c3Request.requested_staff_id ∧
    approve_swap_request c3State 7 =
      (⟨[c3Shift], [{ c3Request with status := SwapStatus.approved }]⟩,
        Except.ok { c3Request with status := SwapStatus.approved }) :=
  ⟨rfl, by decide, rfl⟩

/-- C3 amended: on a pending request, accept by the requested staff member
sets the status to approved and reassigns the referenced shift to them;
decline sets denied without touching any shift; administrator approval or
denial sets the status but never touches any shift; and through the staff
respond path both outcomes are terminal — responding to a non-pending request
is rejected with the state unchanged. -/
theorem c3_swap_outcomes :
    (∀ (st : SwapState) (staff_id request_id : Nat) (r : SwapRequest) (sh : Shift),
      swapGet st.swaps request_id = some r →
      r.requested_staff_id = staff_id →
      r.status = SwapStatus.pending →
      dbGet st.shifts r.shift_id = some sh →
      respond_to_swap_request st staff_id request_id SwapAction.accept =
        (⟨dbUpdate st.shifts { sh with staff_id := r.requested_staff_id },
            swapUpdate st.swaps { r with status := SwapStatus.approved }⟩,
          Except.ok { r with status := SwapStatus.approved })) ∧
    (∀ (st : SwapState) (staff_id request_id : Nat) (r : SwapRequest),
      swapGet st.swaps request_id = some r →
      r.requested_staff_id = staff_id →
      r.status = SwapStatus.pending →
      respond_to_swap_request st staff_id request_id SwapAction.decline =
        (⟨st.shifts, swapUpdate st.swaps { r with status := SwapStatus.denied }⟩,
          Except.ok { r with status := SwapStatus.denied })) ∧
    (∀ (st : SwapState) (request_id : Nat) (r : SwapRequest),
      swapGet st.swaps request_id = some r →
      approve_swap_request st request_id =
        (⟨st.shifts, swapUpdate st.swaps { r with status := SwapStatus.approved }⟩,
          Except.ok { r with status := SwapStatus.approved })) ∧
    (∀ (st : SwapState) (request_id : Nat) (r : SwapRequest),
      swapGet st.swaps request_id = some r →
      deny_swap_request st request_id =
        (⟨st.shifts, swapUpdate st.swaps { r with status := SwapStatus.denied }⟩,
          Except.ok { r with status := SwapStatus.denied })) ∧
    (∀ (st : SwapState) (staff_id request_id : Nat) (r : SwapRequest)
        (action : SwapAction),
      swapGet st.swaps request_id = some r →
      r.requested_staff_id = staff_id →
      r.status ≠ SwapStatus.pending →
      respond_to_swap_request st staff_id request_id action =
        (st, Except.error SwapError.alreadyProcessed)) := by
  refine ⟨?_, ?_, ?_, ?_, ?_⟩
  · intro st staff_id request_id r sh hget hown hpend hsh
    have h1 : ¬ (r.requested_staff_id ≠ staff_id) := by simp [hown]
    have h2 : ¬ (r.status ≠ SwapStatus.pending) := by simp [hpend]
    unfold respond_to_swap_request
    rw [hget]
    simp only [if_neg h1, if_neg h2]
    rw [hsh]
  · intro st staff_id request_id r hget hown hpend
    have h1 : ¬ (r.requested_staff_id ≠ staff_id) := by simp [hown]
    have h2 : ¬ (r.status ≠ SwapStatus.pending) := by simp [hpend]
    unfold respond_to_swap_request
    rw [hget]
    simp only [if_neg h1, if_neg h2]
  · intro st request_id r hget
    unfold approve_swap_request
    rw [hget]
  · intro st request_id r hget
    unfold deny_swap_request
    rw [hget]
  · intro st staff_id request_id r action hget hown hnp
    have h1 : ¬ (r.requested_staff_id ≠ staff_id) := by simp [hown]
    unfold respond_to_swap_request
    rw [hget]
    simp only [if_neg h1, if_pos hnp]

/-- A swap request that has already been denied. -/
def c3DoneRequest : SwapRequest :=
  { id := 8, requesting_staff_id := 1, requested_staff_id := 2,
    shift_id := 5, status := SwapStatus.denied }

/-- State holding the already-denied request. -/
def c3DoneState : SwapState := ⟨[c3Shift], [c3DoneRequest]⟩

/-- C3 witness: the five conjuncts at the concrete scenario — accept by staff 2
reassigns shift 5 to staff 2; decline, admin approve and admin deny leave the
shift table unchanged; a respond on the denied request is rejected. -/
theorem c3_swap_outcomes_witness :
    respond_to_swap_request c3State 2 7 SwapAction.accept =
      (⟨dbUpdate [c3Shift] { c3Shift with staff_id := c3Request.requested_staff_id },
          swapUpdate [c3Request] { c3Request with status := SwapStatus.approved }⟩,
        Except.ok { c3Request with status := SwapStatus.approved }) ∧
    respond_to_swap_request c3State 2 7 SwapAction.decline =
      (⟨[c3Shift], swapUpdate [c3Request] { c3Request with status := SwapStatus.denied }⟩,
        Except.ok { c3Request with status := SwapStatus.denied }) ∧
    approve_swap_request c3State 7 =
      (⟨[c3Shift], swapUpdate [c3Request] { c3Request with status := SwapStatus.approved }⟩,
        Except.ok { c3Request with status := SwapStatus.approved }) ∧
    deny_swap_request c3State 7 =
      (⟨[c3Shift], swapUpdate [c3Request] { c3Request with status := SwapStatus.denied }⟩,
        Except.ok { c3Request with status := SwapStatus.denied }) ∧
    respond_to_swap_request c3DoneState 2 8 SwapAction.accept =
      (c3DoneState, Except.error SwapError.alreadyProcessed) :=
  ⟨c3_swap_outcomes.1 c3State 2 7 c3Request c3Shift rfl rfl rfl rfl,
   c3_swap_outcomes.2.1 c3State 2 7 c3Request rfl rfl rfl,
   c3_swap_outcomes.2.2.1 c3State 7 c3Request rfl,
   c3_swap_outcomes.2.2.2.1 c3State 7 c3Request rfl,
   c3_swap_outcomes.2.2.2.2 c3DoneState 2 8 c3DoneRequest SwapAction.accept
     rfl rfl (by decide)⟩

/-- A denied swap request used to refute the non-pending guard claim. -/
def c4Request : SwapRequest :=
  { id := 9, requesting_staff_id := 1, requested_staff_id := 2,
    shift_id := 5, status := SwapStatus.denied }

/-- State holding only the denied request. -/
def c4State : SwapState := ⟨[], [c4Request]⟩

/-- C4 counterexample: administrator approval of an already-denied request is
not rejected — it succeeds and overwrites the status with approved. -/
theorem c4_counterexample :
    c4Request.status ≠ SwapStatus.pending ∧
    approve_swap_request c4State 9 =
      (⟨[], [{ c4Request with status := SwapStatus.approved }]⟩,
        Except.ok { c4Request with status := SwapStatus.approved }) ∧
    ({ c4Request with status := SwapStatus.approved }).status ≠ c4Request.status :=
  ⟨by decide, rfl, by decide⟩

/-- C4 amended: a further accept/decline through the staff respond endpoint on
a non-pending request is rejected with the state unchanged; the administrator
approve/deny controllers perform no status check — whenever the request
exists they overwrite its status with approved/denied, never touching any
shift. -/
theorem c4_non_pending_guard :
    (∀ (st : SwapState) (staff_id request_id : Nat) (r : SwapRequest)
        (action : SwapAction),
      swapGet st.swaps request_id = some r →
      r.requested_staff_id = staff_id →
      r.status ≠ SwapStatus.pending →
      respond_to_swap_request st staff_id request_id action =
        (st, Except.error SwapError.alreadyProcessed)) ∧
    (∀ (st : SwapState) (request_id : Nat) (r : SwapRequest),
      swapGet st.swaps request_id = some r →
      (approve_swap_request st request_id).1.shifts = st.shifts ∧
      (approve_swap_request st request_id).2 =
        Except.ok { r with status := SwapStatus.approved }) ∧
    (∀ (st : SwapState) (request_id : Nat) (r : SwapRequest),
      swapGet st.swaps request_id = some r →
      (deny_swap_request st request_id).1.shifts = st.shifts ∧
      (deny_swap_request st request_id).2 =
        Except.ok { r with status := SwapStatus.denied }) := by
  refine ⟨?_, ?_, ?_⟩
  · intro st staff_id request_id r action hget hown hnp
    have h1 : ¬ (r.requested_staff_id ≠ staff_id) := by simp [hown]
    unfold respond_to_swap_request
    rw [hget]
    simp only [if_neg h1, if_pos hnp]
  · intro st request_id r hget
    unfold approve_swap_request
    rw [hget]
    exact ⟨rfl, rfl⟩
  · intro st request_id r hget
    unfold deny_swap_request
    rw [hget]
    exact ⟨rfl, rfl⟩

/-- C4 witness: the guard conjuncts at the concrete denied request — the staff
respond path rejects it, while admin approve/deny still succeed on it. -/
theorem c4_non_pending_guard_witness :
    respond_to_swap_request c4State 2 9 SwapAction.decline =
      (c4State, Except.error SwapError.alreadyProcessed) ∧
    ((approve_swap_request c4State 9).1.shifts = c4State.shifts ∧
      (approve_swap_request c4State 9).2 =
        Except.ok { c4Request with status := SwapStatus.approved }) ∧
    ((deny_swap_request c4State 9).1.shifts = c4State.shifts ∧
      (deny_swap_request c4State 9).2 =
        Except.ok { c4Request with status := SwapStatus.denied }) :=
  ⟨c4_non_pending_guard.1 c4State 2 9 c4Request SwapAction.decline rfl rfl
      (by decide),
   c4_non_pending_guard.2.1 c4State 9 c4Request rfl,
   c4_non_pending_guard.2.2 c4State 9 c4Request rfl⟩
